import Mathlib

/-!
Verification of the conversation-flow / safety-monitor core of the
AI-voice mental-health assistant backend.

The Python sources embedded here are:
  * `backend/safety_monitor.py`   (`SafetyMonitor.check_for_crisis`,
    `SafetyMonitor.check_phq9_question9`, the trigger/indicator/pattern lists)
  * `backend/gemini_client.py`    (`GeminiClient.map_response_to_score`,
    `GeminiClient._fallback_scoring`)
  * `backend/conversation_flow.py` (`ConversationFlowManager`: the phase
    handlers, `_determine_screening_tool`, `_calculate_severity_level`,
    `process_user_message`)

The module `session_manager.py` (enums `ConversationPhase`, `ScreeningTool`,
the `SessionData` record and the store operations `update_session`,
`add_response`, `add_conversation`, `get_total_score`) is not part of the
source tree; those parts are modelled from the specification and are marked
`Modelled from the spec:` below.

The external text-generation/scoring collaborator (the Gemini model) is
abstracted as an oracle, per the specification, which places it out of
scope: its wording is never inspected for control decisions.  Strings are
treated at ASCII granularity (`Char.toLower`, `Char.isWhitespace`), which
covers every trigger word, pattern and test input appearing in the sources.
-/

/-! ### Python-style string primitives -/

/-- Python's `needle in hay` substring test, on character lists:
true iff `needle` is a contiguous sublist of `hay` (the empty needle
matches everything, as in Python). -/
def subList : List Char → List Char → Bool
  | needle, [] => needle.isEmpty
  | needle, c :: rest => needle.isPrefixOf (c :: rest) || subList needle rest

/-- Python's `needle in hay` on strings. -/
def strContains (hay needle : String) : Bool := subList needle.data hay.data

/-- Python's `str.lower()` (ASCII). -/
def pyLower (s : String) : String := ⟨s.data.map Char.toLower⟩

/-- Python's `str.strip()` on a character list: drop leading and trailing
whitespace. -/
def pyStripList (l : List Char) : List Char :=
  ((l.dropWhile Char.isWhitespace).reverse.dropWhile Char.isWhitespace).reverse

/-- Python's `str.strip()`. -/
def pyStrip (s : String) : String := ⟨pyStripList s.data⟩

/-- `text.lower().strip()`, the normalisation used by both classifiers
(`safety_monitor.py` lines 92 and 145). -/
def pyNormalize (s : String) : String := pyStrip (pyLower s)

/-- Split a character list at every character satisfying `p`, keeping
empty segments — the shape of Python's `str.split(sep)`. -/
def splitOnPred (p : Char → Bool) : List Char → List (List Char)
  | [] => [[]]
  | c :: rest =>
    let r := splitOnPred p rest
    if p c then [] :: r
    else
      match r with
      | [] => [[c]]
      | h :: t => (c :: h) :: t

/-- Python's `s.split(sep)` for a one-character separator. -/
def pySplitChar (s : String) (sep : Char) : List String :=
  (splitOnPred (fun c => c == sep) s.data).map (fun l => ⟨l⟩)

/-- Python's `s.split()` (no argument): split on whitespace runs,
discarding empty segments. -/
def pySplitWs (s : String) : List String :=
  ((splitOnPred Char.isWhitespace s.data).filter (fun l => l ≠ [])).map (fun l => ⟨l⟩)

/-- Rejoin with a one-character separator (to model Python's
`s.split(sep, 1)[1]`, which keeps later separators). -/
def intercalateChar (sep : Char) : List String → String
  | [] => ""
  | [x] => x
  | x :: xs => x ++ ⟨[sep]⟩ ++ intercalateChar sep xs

/-- Python's `s.startswith(pre)`. -/
def pyStartsWith (s pre : String) : Bool := pre.data.isPrefixOf s.data

/-! ### Crisis levels and verdicts (`safety_monitor.py` lines 13-27) -/

/-- `CrisisLevel` enum. -/
inductive CrisisLevel
  | NONE
  | WARNING
  | CRITICAL
deriving DecidableEq, Repr

/-- `CrisisResponse` dataclass.  Its fields are exactly `level`,
`triggered_words`, `message`, `timestamp`, `requires_override`; in
particular there is **no** field named `should_override` (this matters for
`process_user_message` below).  The wall-clock `datetime.now()` timestamp
is modelled as a `Nat` supplied by the caller. -/
structure CrisisResponse where
  level : CrisisLevel
  triggered_words : List String
  message : String
  timestamp : Nat
  requires_override : Bool
deriving DecidableEq, Repr

/-! ### SafetyMonitor configuration (`safety_monitor.py` lines 30-71) -/

/-- The default critical trigger list (`__init__`, lines 41-47). -/
def default_critical_triggers : List String :=
  ["suicide", "suicidal", "kill myself", "end my life",
   "self-harm", "hurt myself", "cut myself", "harm myself",
   "want to die", "better off dead", "no point living",
   "hurt others", "kill someone", "harm others", "end it all",
   "take my own life", "not worth living", "kill them"]

/-- The default warning indicator list (`__init__`, lines 50-54). -/
def default_warning_indicators : List String :=
  ["hopeless", "worthless", "trapped", "burden",
   "desperate", "overwhelmed", "can't cope", "give up",
   "no way out", "pointless", "useless", "hate myself"]

/-- A PHQ-9 question-9 pattern.  Every pattern in the source is either a
word-boundary-delimited alternation `\b(w1|...|wn)\b`, or two such
alternations joined by `.*` (any characters except newline).  `alts ws`
models the first shape, `altsThenAlts ws1 ws2` the second. -/
inductive Q9Pat
  | alts (ws : List String)
  | altsThenAlts (ws1 ws2 : List String)
deriving DecidableEq, Repr

/-- `phq9_q9_positive_patterns` (`__init__`, lines 61-66).  The regex
`thoughts?` is expanded into the two literal alternatives `thought` /
`thoughts`. -/
def phq9_q9_positive_patterns : List Q9Pat :=
  [.alts ["yes", "sometimes", "often", "nearly every day", "several days"],
   .alts ["more than half", "have thought", "been thinking"],
   .alts ["crossed my mind", "considered", "considering", "thinking about"],
   .altsThenAlts ["thought of", "thoughts of", "idea of", "wanting to"]
                 ["die", "death", "harm"]]

/-- `phq9_q9_negative_patterns` (`__init__`, lines 68-71). -/
def phq9_q9_negative_patterns : List Q9Pat :=
  [.alts ["no", "never", "not at all", "haven't", "don't"],
   .alts ["absolutely not", "definitely not", "of course not"]]

/-- `SafetyMonitor` state: the two configurable word lists plus the fixed
question-9 pattern lists (the constructor always installs the same pattern
constants; they are carried in the structure to mirror the instance
attributes). -/
structure SafetyMonitor where
  critical_triggers : List String
  warning_indicators : List String
  q9_positive_patterns : List Q9Pat
  q9_negative_patterns : List Q9Pat

/-- `SafetyMonitor.__init__(config_trigger_words)`:
default lists, with any custom trigger words appended to the critical
list (lines 56-58). -/
def SafetyMonitor.init (config_trigger_words : Option (List String)) : SafetyMonitor :=
  { critical_triggers :=
      default_critical_triggers ++ config_trigger_words.getD []
    warning_indicators := default_warning_indicators
    q9_positive_patterns := phq9_q9_positive_patterns
    q9_negative_patterns := phq9_q9_negative_patterns }

/-! ### check_for_crisis (`safety_monitor.py` lines 73-130) -/

/-- `_get_crisis_message` (lines 181-191). -/
def SafetyMonitor.get_crisis_message : String :=
  "I'm very concerned about what you've shared with me. Your safety is the most important thing right now.\n\nPlease reach out for immediate support:\n• Crisis Helpline: 988 (available 24/7)\n• Emergency Services: 911\n• Crisis Text Line: Text HOME to 741741\n\nYou don't have to go through this alone. There are people who want to help you, and things can get better. Please reach out to one of these resources right away."

/-- `_get_warning_message` (lines 193-202). -/
def SafetyMonitor.get_warning_message : String :=
  "I hear that you're going through a difficult time. While I can help with this screening, please remember that professional support is available if you need someone to talk to.\n\nIf you're feeling overwhelmed, consider reaching out to:\n• Crisis Helpline: 988\n• Your healthcare provider\n• A trusted friend or family member\n\nWould you like to continue with the screening, or would you prefer information about mental health resources?"

/-- The critical triggers that fire on a given normalised text:
`[t for t in self.critical_triggers if t.lower() in normalized_text]`
(the loop of lines 96-98, order preserving, original casing collected). -/
def SafetyMonitor.matchedCritical (m : SafetyMonitor) (normalized_text : String) : List String :=
  m.critical_triggers.filter (fun t => strContains normalized_text (pyLower t))

/-- The warning indicators that fire on a given normalised text
(lines 110-113). -/
def SafetyMonitor.matchedWarning (m : SafetyMonitor) (normalized_text : String) : List String :=
  m.warning_indicators.filter (fun w => strContains normalized_text (pyLower w))

/-- The `CrisisLevel.NONE` response (lines 83-90 and 124-130). -/
def noneCrisisResponse (now : Nat) : CrisisResponse :=
  { level := .NONE, triggered_words := [], message := "", timestamp := now,
    requires_override := false }

/-- `SafetyMonitor.check_for_crisis(text)` (lines 73-130).  The input is an
`Option String` so that Python's `None` (`not isinstance(text, str)`) and
the falsy empty string are both covered by the first guard; `now` stands
for `datetime.now()`. -/
def SafetyMonitor.check_for_crisis (m : SafetyMonitor) (text : Option String)
    (now : Nat) : CrisisResponse :=
  match text with
  | none => noneCrisisResponse now
  | some t =>
    if t = "" then noneCrisisResponse now
    else
      let normalized_text := pyNormalize t
      let triggered_words := m.matchedCritical normalized_text
      if triggered_words ≠ [] then
        { level := .CRITICAL, triggered_words := triggered_words,
          message := SafetyMonitor.get_crisis_message, timestamp := now,
          requires_override := true }
      else
        let warning_words := m.matchedWarning normalized_text
        if warning_words ≠ [] then
          { level := .WARNING, triggered_words := warning_words,
            message := SafetyMonitor.get_warning_message, timestamp := now,
            requires_override := false }
        else noneCrisisResponse now

/-! ### The word-boundary regex matcher for question 9 -/

/-- Python `\w` at ASCII granularity: letters, digits, underscore. -/
def isWordChar (c : Char) : Bool := c.isAlphanum || c == '_'

/-- `re.search`-style anchored test: does `phrase` occur in `s` starting at
index `i` with a `\b` word boundary on each side?  All alternatives in the
source patterns begin and end with word characters, so the boundary
condition reduces to "the adjacent character, when it exists, is not a
word character". -/
def matchAt (s : List Char) (phrase : List Char) (i : Nat) : Bool :=
  (i == 0 || !isWordChar (s.getD (i - 1) ' ')) &&
  phrase.isPrefixOf (s.drop i) &&
  (decide (s.length ≤ i + phrase.length) || !isWordChar (s.getD (i + phrase.length) ' '))

/-- `re.search(r'\b(w1|...|wn)\b', s)`: some alternative matches at some
position. -/
def searchAlts (ws : List String) (s : List Char) : Bool :=
  (List.range (s.length + 1)).any (fun i => ws.any (fun w => matchAt s w.data i))

/-- `re.search(r'\b(..)\b.*\b(..)\b', s)`: a first-group alternative
matches at `i`, a second-group alternative matches at some `j` at or after
the end of the first match, and `.*` spans only non-newline characters in
between. -/
def searchAltsDotStar (ws1 ws2 : List String) (s : List Char) : Bool :=
  (List.range (s.length + 1)).any fun i =>
    ws1.any fun w =>
      matchAt s w.data i &&
      ((List.range (s.length + 1)).any fun j =>
        decide (i + w.data.length ≤ j) &&
        ((List.range' (i + w.data.length) (j - (i + w.data.length))).all
          (fun k => s.getD k ' ' != '\n')) &&
        ws2.any fun w2 => matchAt s w2.data j)

/-- Run one question-9 pattern against a string (the patterns are applied
to the already-lowercased normalised text, so `re.IGNORECASE` is inert). -/
def Q9Pat.matches (p : Q9Pat) (s : String) : Bool :=
  match p with
  | .alts ws => searchAlts ws s.data
  | .altsThenAlts ws1 ws2 => searchAltsDotStar ws1 ws2 s.data

/-- Does any negative pattern fire on the normalised text? -/
def SafetyMonitor.q9Neg (m : SafetyMonitor) (s : String) : Bool :=
  m.q9_negative_patterns.any (fun p => p.matches s)

/-- Does any positive pattern fire on the normalised text? -/
def SafetyMonitor.q9Pos (m : SafetyMonitor) (s : String) : Bool :=
  m.q9_positive_patterns.any (fun p => p.matches s)

/-- `SafetyMonitor.check_phq9_question9(response)` (lines 132-159).  The
source loops over the negative patterns and returns `False` as soon as one
matches while `len(normalized_response) < 20`; since the length test does
not depend on the pattern, this equals the single conjunction used here.
Then any positive-pattern match returns `True`, else `False`. -/
def SafetyMonitor.check_phq9_question9 (m : SafetyMonitor)
    (response : Option String) : Bool :=
  match response with
  | none => false
  | some r =>
    if r = "" then false
    else
      let normalized_response := pyNormalize r
      if m.q9Neg normalized_response && decide (normalized_response.length < 20) then
        false
      else m.q9Pos normalized_response

/-! ### Screening instruments and session state

`ConversationPhase`, `ScreeningTool` and the session record live in
`session_manager.py`, which is not part of the source tree; they are
modelled from the specification (§3, §4.1, §4.2). -/

/-- Modelled from the spec: `ConversationPhase` enum of `session_manager.py`
(§4.2 states: GREETING, TRIAGE, SCREENING, RESULTS, CRISIS_RESPONSE). -/
inductive ConversationPhase
  | GREETING
  | TRIAGE
  | SCREENING
  | RESULTS
  | CRISIS_RESPONSE
deriving DecidableEq, Repr

/-- Modelled from the spec: `ScreeningTool` enum of `session_manager.py`
(the three instruments of §4.2a). -/
inductive ScreeningTool
  | PHQ9
  | GAD7
  | GHQ12
deriving DecidableEq, Repr

/-- One screening question (`id`, `text`) as in
`_initialize_screening_questions`. -/
structure Question where
  id : String
  text : String
deriving DecidableEq, Repr

/-- Out-of-range default for `List.getD`; only used where the Python list
indexing is statically in range. -/
def dummyQuestion : Question := ⟨"", ""⟩

/-- `_initialize_screening_questions` (`conversation_flow.py` lines 36-73). -/
def screening_questions : ScreeningTool → List Question
  | .PHQ9 =>
    [⟨"phq9_1", "Little interest or pleasure in doing things"⟩,
     ⟨"phq9_2", "Feeling down, depressed, or hopeless"⟩,
     ⟨"phq9_3", "Trouble falling or staying asleep, or sleeping too much"⟩,
     ⟨"phq9_4", "Feeling tired or having little energy"⟩,
     ⟨"phq9_5", "Poor appetite or overeating"⟩,
     ⟨"phq9_6", "Feeling bad about yourself — or that you are a failure or have let yourself or your family down"⟩,
     ⟨"phq9_7", "Trouble concentrating on things, such as reading the newspaper or watching television"⟩,
     ⟨"phq9_8", "Moving or speaking so slowly that other people could have noticed. Or the opposite — being so fidgety or restless that you have been moving around a lot more than usual"⟩,
     ⟨"phq9_9", "Thoughts that you would be better off dead, or of hurting yourself"⟩]
  | .GAD7 =>
    [⟨"gad7_1", "Feeling nervous, anxious, or on edge"⟩,
     ⟨"gad7_2", "Not being able to stop or control worrying"⟩,
     ⟨"gad7_3", "Worrying too much about different things"⟩,
     ⟨"gad7_4", "Trouble relaxing"⟩,
     ⟨"gad7_5", "Being so restless that it is hard to sit still"⟩,
     ⟨"gad7_6", "Becoming easily annoyed or irritable"⟩,
     ⟨"gad7_7", "Feeling afraid, as if something awful might happen"⟩]
  | .GHQ12 =>
    [⟨"ghq12_1", "Been able to concentrate on whatever you're doing"⟩,
     ⟨"ghq12_2", "Lost much sleep over worry"⟩,
     ⟨"ghq12_3", "Felt that you are playing a useful part in things"⟩,
     ⟨"ghq12_4", "Felt capable of making decisions about things"⟩,
     ⟨"ghq12_5", "Felt constantly under strain"⟩,
     ⟨"ghq12_6", "Felt you couldn't overcome your difficulties"⟩,
     ⟨"ghq12_7", "Been able to enjoy your normal day-to-day activities"⟩,
     ⟨"ghq12_8", "Been able to face up to your problems"⟩,
     ⟨"ghq12_9", "Been feeling unhappy and depressed"⟩,
     ⟨"ghq12_10", "Been losing confidence in yourself"⟩,
     ⟨"ghq12_11", "Been thinking of yourself as a worthless person"⟩,
     ⟨"ghq12_12", "Been feeling reasonably happy, all things considered"⟩]

/-- Modelled from the spec: one entry of the session's `responses`
sequence — `{questionId, rawText, score}` (§3; the per-entry timestamp is
omitted, no claim mentions it). -/
structure ResponseEntry where
  question_id : String
  raw_text : String
  score : Int
deriving DecidableEq, Repr

/-- Modelled from the spec: the session record of `session_manager.py`
(§3).  The store-level `id`, `country` and activity timestamps are
omitted — no claim about the flow manager depends on them. -/
structure SessionData where
  user_name : Option String
  current_phase : ConversationPhase
  selected_tool : Option ScreeningTool
  responses : List ResponseEntry
  conversation_history : List (String × String × ConversationPhase)
  crisis_detected : Bool
  completed : Bool
deriving DecidableEq, Repr

/-- Modelled from the spec: `SessionManager.add_response` — atomic append
of one scored answer (§4.1). -/
def SessionData.add_response (s : SessionData) (question_id raw_text : String)
    (score : Int) : SessionData :=
  { s with responses := s.responses ++ [⟨question_id, raw_text, score⟩] }

/-- Modelled from the spec: `SessionManager.add_conversation` — atomic
append of one transcript turn (§4.1). -/
def SessionData.add_conversation (s : SessionData) (user_message ai_message : String)
    (phase : ConversationPhase) : SessionData :=
  { s with conversation_history :=
      s.conversation_history ++ [(user_message, ai_message, phase)] }

/-- Modelled from the spec: `SessionData.get_total_score` — the sum of all
recorded scores (§4.2 rule 5). -/
def SessionData.get_total_score (s : SessionData) : Int :=
  (s.responses.map fun r => r.score).sum

/-! ### GeminiClient scoring (`gemini_client.py` lines 322-412) -/

/-- Outcome of one `self.model.generate_content(...)` call as seen by
`map_response_to_score`: the call raised (`err`), or produced a response
whose `.text` is the given string (the empty string standing for any falsy
`response.text`). -/
inductive CollabReply
  | err
  | text (s : String)
deriving DecidableEq, Repr

/-- Python `int(...)` on a stripped token: optional sign followed by at
least one ASCII digit; `none` models the `ValueError` the source catches. -/
def pyInt (s : String) : Option Int :=
  let t := pyStrip s
  let signDigits : Int × List Char :=
    match t.data with
    | '+' :: rest => (1, rest)
    | '-' :: rest => (-1, rest)
    | l => (1, l)
  if signDigits.2 ≠ [] && signDigits.2.all Char.isDigit then
    some (signDigits.1 *
      ((signDigits.2.foldl (fun acc c => acc * 10 + (c.toNat - 48)) 0 : Nat) : Int))
  else none

/-- The parsing step of `map_response_to_score` (lines 368-381) on a truthy
`response.text`: strip, split into lines, locate the `SCORE:` and
`EXPLANATION:` lines, parse `int(score_line.split(':')[1].strip())` and
take the explanation after the first colon; succeed only when the score
lies in `0..3`.  `none` collects every path of the source that falls
through to fallback scoring: a missing line, an unparsable integer
(`ValueError` caught at line 387), or an out-of-range score (line 384). -/
def GeminiClient.parseScoreReply (t : String) : Option (Int × String) :=
  let lines := pySplitChar (pyStrip t) '\n'
  match lines.find? (fun l => pyStartsWith l "SCORE:"),
        lines.find? (fun l => pyStartsWith l "EXPLANATION:") with
  | some score_line, some explanation_line =>
    match pyInt (pyStrip ((pySplitChar score_line ':').getD 1 "")) with
    | some score =>
      let explanation := pyStrip (intercalateChar ':' ((pySplitChar explanation_line ':').drop 1))
      if 0 ≤ score ∧ score ≤ 3 then some (score, explanation) else none
    | none => none
  | _, _ => none

/-- `GeminiClient._fallback_scoring(user_response)` (lines 391-412). -/
def GeminiClient.fallback_scoring (user_response : String) : Int × String :=
  let response_lower := pyLower user_response
  if ["always", "constantly", "every day", "all the time", "never stops"].any
      (fun w => strContains response_lower w) then
    (3, "Fallback scoring based on high frequency indicators")
  else if ["often", "frequently", "most days", "usually"].any
      (fun w => strContains response_lower w) then
    (2, "Fallback scoring based on medium-high frequency indicators")
  else if ["sometimes", "occasionally", "few times", "now and then"].any
      (fun w => strContains response_lower w) then
    (1, "Fallback scoring based on low frequency indicators")
  else if ["never", "not at all", "rarely", "hardly ever"].any
      (fun w => strContains response_lower w) then
    (0, "Fallback scoring based on minimal frequency indicators")
  else (1, "Fallback scoring - conservative default")

/-- `GeminiClient.map_response_to_score` (lines 322-389), with the external
model call abstracted into the `reply` argument (the prompt built from
`question_context`/`screening_tool` only influences that reply).  An
exception (`err`), a falsy `response.text`, or a reply the parser rejects
all end in `_fallback_scoring`; nothing is ever raised to the caller. -/
def GeminiClient.map_response_to_score (reply : CollabReply)
    (user_response : String) : Int × String :=
  match reply with
  | .err => GeminiClient.fallback_scoring user_response
  | .text t =>
    if t = "" then GeminiClient.fallback_scoring user_response
    else
      match GeminiClient.parseScoreReply t with
      | some r => r
      | none => GeminiClient.fallback_scoring user_response

/-- Did the external scoring collaborator fail or return output the parser
cannot use?  (The failure condition of spec §4.4.) -/
def GeminiClient.scoringFailed (reply : CollabReply) : Bool :=
  match reply with
  | .err => true
  | .text t => t = "" || (GeminiClient.parseScoreReply t).isNone

/-! ### ConversationFlowManager (`conversation_flow.py`) -/

/-- The external collaborator as one oracle: `genResponse` stands for
`GeminiClient.generate_response` (total — the source catches every
exception and substitutes a canned fallback string, lines 318-320 of
`gemini_client.py`), `scoreReply` for the raw model reply consumed by
`map_response_to_score` for a given (answer, question text, tool) triple.
The context-tag plumbing only selects prompt wording, which no control
decision inspects, so it is not carried. -/
structure Collaborator where
  genResponse : String → String
  scoreReply : String → String → ScreeningTool → CollabReply

/-- The result dictionary of `process_user_message` and the phase
handlers, with one optional field per key that appears in the source
(`selected_tool` and `screening_tool` are distinct keys in the source and
kept distinct here). -/
structure FlowResult where
  error : Option String := none
  ai_response : Option String := none
  current_phase : Option ConversationPhase := none
  crisis_detected : Bool := false
  crisis_level : Option CrisisLevel := none
  selected_tool : Option ScreeningTool := none
  screening_tool : Option ScreeningTool := none
  question_number : Option Nat := none
  total_score : Option Int := none
  severity_level : Option String := none
  completed : Option Bool := none
  next_action : Option String := none
  crisis_trigger : Option String := none
deriving DecidableEq, Repr

/-- `_get_error_response` (lines 554-561). -/
def FlowResult.error_response (session : SessionData) (error_message : String) : FlowResult :=
  { error := some error_message,
    ai_response := some "I'm sorry, I encountered an error. Let's try again or start over.",
    current_phase := some session.current_phase,
    crisis_detected := false }

/-- `_determine_screening_tool` (lines 435-454): count case-insensitive
substring hits of the fixed depression and anxiety keyword lists,
strictly-more depression hits → PHQ9, strictly-more anxiety hits → GAD7,
tie → GHQ12. -/
def depression_keywords : List String :=
  ["sad", "depressed", "depression", "down", "hopeless", "empty", "worthless"]

/-- The fixed anxiety keyword list of `_determine_screening_tool`. -/
def anxiety_keywords : List String :=
  ["anxious", "anxiety", "worried", "worry", "nervous", "panic", "fear"]

/-- `_determine_screening_tool` itself. -/
def determine_screening_tool (user_message : String) : ScreeningTool :=
  let message_lower := pyLower user_message
  let depression_score :=
    (depression_keywords.filter (fun k => strContains message_lower k)).length
  let anxiety_score :=
    (anxiety_keywords.filter (fun k => strContains message_lower k)).length
  if anxiety_score < depression_score then .PHQ9
  else if depression_score < anxiety_score then .GAD7
  else .GHQ12

/-- `_calculate_severity_level` (lines 456-486), verbatim threshold
chains. -/
def calculate_severity_level (screening_tool : ScreeningTool) (total_score : Int) : String :=
  match screening_tool with
  | .PHQ9 =>
    if total_score ≤ 4 then "minimal"
    else if total_score ≤ 9 then "mild"
    else if total_score ≤ 14 then "moderate"
    else if total_score ≤ 19 then "moderately_severe"
    else "severe"
  | .GAD7 =>
    if total_score ≤ 4 then "minimal"
    else if total_score ≤ 9 then "mild"
    else if total_score ≤ 14 then "moderate"
    else "severe"
  | .GHQ12 =>
    if total_score ≤ 11 then "minimal"
    else if total_score ≤ 15 then "mild"
    else if total_score ≤ 20 then "moderate"
    else "severe"

/-- `_handle_crisis_response` (lines 359-390): mark the session, move it to
CRISIS_RESPONSE, emit the classifier's message (or a stock line if that
message is falsy), record the turn.  (In the source this function is only
reachable through the broken guard of line 99 — see
`process_user_message`.) -/
def handle_crisis_response (session : SessionData) (user_message : String)
    (crisis_response : CrisisResponse) : SessionData × FlowResult :=
  let session1 := { session with crisis_detected := true,
                                 current_phase := .CRISIS_RESPONSE }
  let crisis_message :=
    if crisis_response.message = "" then
      "I'm concerned about what you've shared. Please reach out for immediate support."
    else crisis_response.message
  let session2 := session1.add_conversation user_message crisis_message .CRISIS_RESPONSE
  (session2,
   { ai_response := some crisis_message,
     current_phase := some .CRISIS_RESPONSE,
     crisis_detected := true,
     crisis_level := some crisis_response.level,
     next_action := some "crisis_intervention" })

/-- `_handle_phq9_q9_crisis` (lines 392-433): mark the session, move to
CRISIS_RESPONSE, append the question-9 response with its score, emit the
fixed crisis message, record the turn. -/
def handle_phq9_q9_crisis (session : SessionData) (user_message : String)
    (score : Int) : SessionData × FlowResult :=
  let session1 := { session with crisis_detected := true,
                                 current_phase := .CRISIS_RESPONSE }
  let session2 := session1.add_response "phq9_9" user_message score
  let crisis_message :=
    "I'm very concerned about what you've shared regarding thoughts of hurting yourself. Your safety is the most important thing right now. Please reach out for immediate support. If you're in the US, you can call 988 for the Suicide & Crisis Lifeline, or contact emergency services at 911 if you're in immediate danger."
  let session3 := session2.add_conversation user_message crisis_message .CRISIS_RESPONSE
  (session3,
   { ai_response := some crisis_message,
     current_phase := some .CRISIS_RESPONSE,
     crisis_detected := true,
     crisis_trigger := some "PHQ9_Q9",
     next_action := some "crisis_intervention" })

/-- `_handle_greeting_phase` (lines 126-175).  Python's
`not session.user_name` is the falsy test, so a missing name and an empty
name behave alike. -/
def handle_greeting_phase (collab : Collaborator) (session : SessionData)
    (user_message : String) : SessionData × FlowResult :=
  if session.user_name.getD "" = "" && pyStrip user_message ≠ "" then
    let potential_name := (pySplitWs (pyStrip user_message)).getD 0 "there"
    let session1 := { session with user_name := some potential_name }
    let ai_response := collab.genResponse user_message
    let session2 := { session1 with current_phase := .TRIAGE }
    let session3 := session2.add_conversation user_message ai_response .TRIAGE
    (session3,
     { ai_response := some ai_response,
       current_phase := some .TRIAGE,
       crisis_detected := false,
       next_action := some "triage_question" })
  else
    let ai_response := collab.genResponse user_message
    let session1 := session.add_conversation user_message ai_response .GREETING
    (session1,
     { ai_response := some ai_response,
       current_phase := some .GREETING,
       crisis_detected := false,
       next_action := some "collect_name" })

/-- `_handle_triage_phase` (lines 177-221): pick the instrument from the
message, store it, move to SCREENING, present question 1. -/
def handle_triage_phase (collab : Collaborator) (session : SessionData)
    (user_message : String) : SessionData × FlowResult :=
  let screening_tool := determine_screening_tool user_message
  let session1 := { session with selected_tool := some screening_tool,
                                 current_phase := .SCREENING }
  let first_question := (screening_questions screening_tool).getD 0 dummyQuestion
  let ai_response := collab.genResponse first_question.text
  let session2 := session1.add_conversation user_message ai_response .SCREENING
  (session2,
   { ai_response := some ai_response,
     current_phase := some .SCREENING,
     crisis_detected := false,
     selected_tool := some screening_tool,
     question_number := some 1,
     next_action := some "screening_question" })

/-- `_transition_to_results` (lines 488-552).  The source re-reads
`session.selected_tool`; at its only call sites the screening handler has
already returned an error when that field is `None`, so the instrument is
taken as a parameter here. -/
def transition_to_results (collab : Collaborator) (screening_tool : ScreeningTool)
    (session : SessionData) (user_message : String) : SessionData × FlowResult :=
  let questions := screening_questions screening_tool
  let session1 :=
    if pyStrip user_message ≠ "" then
      let current_question_index := session.responses.length
      if current_question_index < questions.length then
        let current_question := questions.getD current_question_index dummyQuestion
        let scored := GeminiClient.map_response_to_score
          (collab.scoreReply user_message current_question.text screening_tool)
          user_message
        session.add_response current_question.id user_message scored.1
      else session
    else session
  let session2 := { session1 with current_phase := .RESULTS }
  let total_score := session2.get_total_score
  let severity_level := calculate_severity_level screening_tool total_score
  let ai_response := collab.genResponse
    ("Screening completed. Total score: " ++ toString total_score ++
     ", Severity: " ++ severity_level)
  let session3 := { session2 with completed := true }
  let session4 := session3.add_conversation user_message ai_response .RESULTS
  (session4,
   { ai_response := some ai_response,
     current_phase := some .RESULTS,
     crisis_detected := false,
     total_score := some total_score,
     severity_level := some severity_level,
     screening_tool := some screening_tool,
     completed := some true,
     next_action := some "screening_complete" })

/-- `_handle_screening_phase` (lines 223-299).  `current_question_index`
is `len(session.responses)`; when it is positive the incoming message is
scored against `questions[current_question_index - 1]` and appended, with
the PHQ-9 question-9 short-circuit checked on that same (lagging)
question; afterwards the question at index `current_question_index` is
presented.  The final `else` of line 293 is kept although the guard of
line 233 makes it unreachable. -/
def handle_screening_phase (collab : Collaborator) (session : SessionData)
    (user_message : String) : SessionData × FlowResult :=
  match session.selected_tool with
  | none => (session, FlowResult.error_response session "No screening tool selected")
  | some screening_tool =>
    let questions := screening_questions screening_tool
    let current_question_index := session.responses.length
    if questions.length ≤ current_question_index then
      transition_to_results collab screening_tool session user_message
    else
      let current_question :=
        if 0 < current_question_index then
          questions.getD (current_question_index - 1) dummyQuestion
        else questions.getD 0 dummyQuestion
      let present : SessionData → SessionData × FlowResult := fun s =>
        let next_question := questions.getD current_question_index dummyQuestion
        let ai_response := collab.genResponse next_question.text
        let s2 := s.add_conversation user_message ai_response .SCREENING
        (s2,
         { ai_response := some ai_response,
           current_phase := some .SCREENING,
           crisis_detected := false,
           selected_tool := some screening_tool,
           question_number := some (current_question_index + 1),
           next_action := some "screening_question" })
      if 0 < current_question_index then
        let scored := GeminiClient.map_response_to_score
          (collab.scoreReply user_message current_question.text screening_tool)
          user_message
        if screening_tool = .PHQ9 ∧ current_question.id = "phq9_9" ∧ 0 < scored.1 then
          handle_phq9_q9_crisis session user_message scored.1
        else
          let session1 := session.add_response current_question.id user_message scored.1
          if current_question_index < questions.length then present session1
          else transition_to_results collab screening_tool session1 user_message
      else
        if current_question_index < questions.length then present session
        else transition_to_results collab screening_tool session user_message

/-- `process_user_message` (lines 75-124).  With a live session, line 98
runs the classifier and line 99 evaluates `crisis_response.should_override`
— but the `CrisisResponse` dataclass has no such attribute (its field is
`requires_override`), so an `AttributeError` is raised on *every* message
and caught by the blanket `except Exception` of line 117, which returns
the error payload without touching the session.  The phase dispatch of
lines 104-115 is therefore dead code; the phase handlers above model it
and are verified separately. -/
def process_user_message (_collab : Collaborator) (m : SafetyMonitor)
    (session : Option SessionData) (user_message : String) (now : Nat) :
    Option SessionData × FlowResult :=
  match session with
  | none =>
    (none, { error := some "Session not found or expired",
             ai_response := none, current_phase := none,
             crisis_detected := false })
  | some s =>
    let _crisis_response := m.check_for_crisis (some user_message) now
    (some s,
     { error := some "Failed to process message: 'CrisisResponse' object has no attribute 'should_override'",
       ai_response := some "I'm sorry, I encountered an error. Let's try again.",
       current_phase := some s.current_phase,
       crisis_detected := false })

/-! ### Derived definitions used by the verification -/

/-- The severity table exactly as the specification words it (§4.2a),
defined over non-negative totals; compared against
`calculate_severity_level` below. -/
def severity_band_spec : ScreeningTool → Nat → String
  | .PHQ9, n =>
    if n ≤ 4 then "minimal"
    else if n ≤ 9 then "mild"
    else if n ≤ 14 then "moderate"
    else if n ≤ 19 then "moderately_severe"
    else "severe"
  | .GAD7, n =>
    if n ≤ 4 then "minimal"
    else if n ≤ 9 then "mild"
    else if n ≤ 14 then "moderate"
    else "severe"
  | .GHQ12, n =>
    if n ≤ 11 then "minimal"
    else if n ≤ 15 then "mild"
    else if n ≤ 20 then "moderate"
    else "severe"

/-- A concrete collaborator: wording oracle returns a stock line, the
scoring model call always fails (exercising the local fallback, which is
the deterministic path). -/
def stubCollab : Collaborator :=
  { genResponse := fun _ => "ok", scoreReply := fun _ _ _ => .err }

/-- A fresh session as `create` makes it: GREETING, nothing recorded. -/
def greetingSession : SessionData :=
  { user_name := none, current_phase := .GREETING, selected_tool := none,
    responses := [], conversation_history := [],
    crisis_detected := false, completed := false }

/-- Scenario A step 1: the session after sending "Bob" in GREETING. -/
def scenarioA_afterName : SessionData :=
  (handle_greeting_phase stubCollab greetingSession "Bob").1

/-- Scenario A step 2: the session after the anxiety-dominant triage
message — SCREENING on the anxiety instrument, question 1 presented. -/
def scenarioA_start : SessionData :=
  (handle_triage_phase stubCollab scenarioA_afterName
    "I've been really anxious and worried").1

/-- One screening turn answering "never". -/
def answerNever (s : SessionData) : SessionData :=
  (handle_screening_phase stubCollab s "never").1

/-- Scenario A steps 3-9: seven consecutive "never" answers. -/
def scenarioA_final : SessionData :=
  answerNever (answerNever (answerNever (answerNever
    (answerNever (answerNever (answerNever scenarioA_start))))))

/-- A PHQ-9 session in which questions 1-8 have been answered (so question
9 has been presented and the incoming message answers it). -/
def q9Session : SessionData :=
  { user_name := some "Bob", current_phase := .SCREENING,
    selected_tool := some .PHQ9,
    responses := (List.range 8).map
      (fun i => ⟨"phq9_" ++ toString (i + 1), "never", 0⟩),
    conversation_history := [],
    crisis_detected := false, completed := false }

/-- Scenario B's positive answer to the self-harm item. -/
def q9PositiveAnswer : String := "yes, nearly every day, I've been thinking about it"

/-! ### Helper lemmas on the string primitives -/

theorem dropWhile_append_all {α : Type} (p : α → Bool) (l1 l2 : List α)
    (h : ∀ a ∈ l1, p a) : (l1 ++ l2).dropWhile p = l2.dropWhile p := by
  induction l1 with
  | nil => rfl
  | cons a t ih =>
    have ha : p a = true := h a (by simp)
    simp only [List.cons_append, List.dropWhile_cons, ha, if_true]
    exact ih (fun x hx => h x (by simp [hx]))

theorem dropWhile_append_ne {α : Type} (p : α → Bool) (l1 l2 : List α)
    (h : l1.dropWhile p ≠ []) : (l1 ++ l2).dropWhile p = l1.dropWhile p ++ l2 := by
  induction l1 with
  | nil => exact absurd rfl h
  | cons a t ih =>
    by_cases ha : p a = true
    · simp only [List.dropWhile_cons, ha, if_true] at h
      simp only [List.cons_append, List.dropWhile_cons, ha, if_true]
      exact ih h
    · have ha' : p a = false := by simpa using ha
      simp [List.dropWhile_cons, ha']

theorem pyStripList_all_ws (l : List Char) (h : ∀ c ∈ l, Char.isWhitespace c) :
    pyStripList l = [] := by
  unfold pyStripList
  rw [List.dropWhile_eq_nil_iff.2 h]
  rfl

theorem pyStripList_pad (w1 x w2 : List Char)
    (h1 : ∀ c ∈ w1, Char.isWhitespace c) (h2 : ∀ c ∈ w2, Char.isWhitespace c) :
    pyStripList (w1 ++ x ++ w2) = pyStripList x := by
  unfold pyStripList
  rw [List.append_assoc, dropWhile_append_all _ w1 _ h1]
  by_cases hx : x.dropWhile Char.isWhitespace = []
  · rw [dropWhile_append_all _ x _ (List.dropWhile_eq_nil_iff.1 hx),
      List.dropWhile_eq_nil_iff.2 h2, hx]
  · rw [dropWhile_append_ne _ x w2 hx, List.reverse_append _ _,
      dropWhile_append_all _ w2.reverse _ (fun c hc => h2 c (List.mem_reverse.1 hc))]

theorem toLower_of_ws (c : Char) (h : c.isWhitespace = true) : c.toLower = c := by
  simp [Char.isWhitespace] at h
  rcases h with ((h | h) | h) | h <;> subst h <;> decide

theorem map_toLower_of_ws (l : List Char) (h : ∀ c ∈ l, Char.isWhitespace c) :
    l.map Char.toLower = l := by
  induction l with
  | nil => rfl
  | cons a t ih =>
    simp only [List.map_cons, toLower_of_ws a (h a (by simp)),
      ih (fun x hx => h x (by simp [hx]))]

theorem str_empty_iff (s : String) : s = "" ↔ s.data = [] := by
  constructor
  · intro h; rw [h]
  · intro h
    cases s with
    | mk l =>
      simp only at h
      subst h
      rfl

theorem pyNormalize_pad (r p q : String)
    (hp : ∀ c ∈ p.data, Char.isWhitespace c) (hq : ∀ c ∈ q.data, Char.isWhitespace c) :
    pyNormalize (p ++ r ++ q) = pyNormalize r := by
  show String.mk (pyStripList ((p.data ++ r.data ++ q.data).map Char.toLower)) =
    String.mk (pyStripList (r.data.map Char.toLower))
  rw [List.map_append, List.map_append, map_toLower_of_ws p.data hp,
    map_toLower_of_ws q.data hq, pyStripList_pad _ _ _ hp hq]

/-! ### check_for_crisis: unfolding and claims C2, C3 -/

theorem check_for_crisis_some (m : SafetyMonitor) (t : String) (h : ¬ t = "") (now : Nat) :
    m.check_for_crisis (some t) now =
      (if m.matchedCritical (pyNormalize t) ≠ [] then
        { level := .CRITICAL, triggered_words := m.matchedCritical (pyNormalize t),
          message := SafetyMonitor.get_crisis_message, timestamp := now,
          requires_override := true }
      else if m.matchedWarning (pyNormalize t) ≠ [] then
        { level := .WARNING, triggered_words := m.matchedWarning (pyNormalize t),
          message := SafetyMonitor.get_warning_message, timestamp := now,
          requires_override := false }
      else noneCrisisResponse now) := by
  simp only [SafetyMonitor.check_for_crisis, if_neg h]

/-- C2: for every input, `check_for_crisis` normalises it (lowercase,
strip) and then: any configured critical trigger occurring as a substring
yields a CRITICAL verdict carrying exactly the matching triggers,
`requires_override = true` and a non-empty message; otherwise any matching
warning indicator yields a WARNING verdict with the matching words and
`requires_override = false`; otherwise — including empty or absent input,
which the source's falsy-guard sends straight to the NONE response — the
NONE verdict with an empty match list and no override, with no error on
any path (the function is total). -/
theorem claim_C2_crisis_classifier (m : SafetyMonitor) (text : Option String) (now : Nat) :
    ((text = none ∨ text = some "") → m.check_for_crisis text now = noneCrisisResponse now)
    ∧ (∀ t : String, text = some t → ¬ t = "" →
        (m.matchedCritical (pyNormalize t) ≠ [] →
          (m.check_for_crisis text now).level = CrisisLevel.CRITICAL
          ∧ (m.check_for_crisis text now).triggered_words = m.matchedCritical (pyNormalize t)
          ∧ (m.check_for_crisis text now).requires_override = true
          ∧ (m.check_for_crisis text now).message ≠ "")
        ∧ (m.matchedCritical (pyNormalize t) = [] → m.matchedWarning (pyNormalize t) ≠ [] →
          (m.check_for_crisis text now).level = CrisisLevel.WARNING
          ∧ (m.check_for_crisis text now).triggered_words = m.matchedWarning (pyNormalize t)
          ∧ (m.check_for_crisis text now).requires_override = false)
        ∧ (m.matchedCritical (pyNormalize t) = [] → m.matchedWarning (pyNormalize t) = [] →
          m.check_for_crisis text now = noneCrisisResponse now)) := by
  constructor
  · rintro (rfl | rfl) <;> rfl
  · rintro t rfl hne
    refine ⟨?_, ?_, ?_⟩
    · intro hcrit
      rw [check_for_crisis_some m t hne, if_pos hcrit]
      refine ⟨rfl, rfl, rfl, ?_⟩
      show SafetyMonitor.get_crisis_message ≠ ""
      decide
    · intro hcrit hwarn
      rw [check_for_crisis_some m t hne, if_neg (by simp [hcrit]), if_pos hwarn]
      exact ⟨rfl, rfl, rfl⟩
    · intro hcrit hwarn
      rw [check_for_crisis_some m t hne, if_neg (by simp [hcrit]), if_neg (by simp [hwarn])]

/-- Witness for C2 at a concrete input: the literal crisis sentence gets a
CRITICAL verdict with override and a non-empty message. -/
theorem claim_C2_crisis_classifier_witness :
    ((SafetyMonitor.init none).check_for_crisis (some "I want to kill myself") 7).level
      = CrisisLevel.CRITICAL
    ∧ ((SafetyMonitor.init none).check_for_crisis (some "I want to kill myself") 7).requires_override
      = true
    ∧ ((SafetyMonitor.init none).check_for_crisis (some "I want to kill myself") 7).message ≠ "" := by
  have h := ((claim_C2_crisis_classifier (SafetyMonitor.init none)
    (some "I want to kill myself") 7).2 "I want to kill myself" rfl (by decide)).1 (by decide)
  exact ⟨h.1, h.2.2.1, h.2.2.2⟩

/-- C3: the classifier verdict is deterministic — for the same monitor
configuration and the same text, every observable verdict component
(level, matched-trigger list, override flag, message) is identical no
matter when or how often it is computed (the `datetime.now()` timestamp is
the only call-dependent input, and no verdict component depends on it),
and `check_phq9_question9` is a pure function of its input. -/
theorem claim_C3_determinism (m : SafetyMonitor) (text : Option String) (n1 n2 : Nat) :
    (m.check_for_crisis text n1).level = (m.check_for_crisis text n2).level
    ∧ (m.check_for_crisis text n1).triggered_words = (m.check_for_crisis text n2).triggered_words
    ∧ (m.check_for_crisis text n1).requires_override = (m.check_for_crisis text n2).requires_override
    ∧ (m.check_for_crisis text n1).message = (m.check_for_crisis text n2).message
    ∧ m.check_phq9_question9 text = m.check_phq9_question9 text := by
  rcases text with _ | t
  · exact ⟨rfl, rfl, rfl, rfl, rfl⟩
  · by_cases ht : t = ""
    · subst ht
      exact ⟨rfl, rfl, rfl, rfl, rfl⟩
    · rw [check_for_crisis_some m t ht n1, check_for_crisis_some m t ht n2]
      split_ifs <;> exact ⟨rfl, rfl, rfl, rfl, rfl⟩

/-! ### check_phq9_question9: claim C4 -/

theorem check_phq9_some (m : SafetyMonitor) (r : String) (h : ¬ r = "") :
    m.check_phq9_question9 (some r) =
      (if m.q9Neg (pyNormalize r) && decide ((pyNormalize r).length < 20) then false
       else m.q9Pos (pyNormalize r)) := by
  simp only [SafetyMonitor.check_phq9_question9, if_neg h]

/-- C4 counterexample: the claim asserts that every listed positive answer
word remains positive under an arbitrary prefix, but prefixing "sometimes"
with "no, " produces a text a negative pattern matches at fewer than 20
characters, which the classifier maps to `false` even though a positive
pattern ("sometimes") matches it. -/
theorem claim_C4_counterexample :
    (SafetyMonitor.init none).q9Pos (pyNormalize "no, sometimes") = true
    ∧ (pyNormalize "no, sometimes").length < 20
    ∧ (SafetyMonitor.init none).check_phq9_question9 (some "no, sometimes") = false := by
  refine ⟨?_, ?_, ?_⟩ <;> decide

/-- C4 (amended): `check_phq9_question9` returns `false` whenever a
configured negative pattern matches the normalised text and that text is
shorter than the 20-character threshold; otherwise it returns exactly
whether some configured positive pattern matches; empty, absent and
pattern-free text give `false`; the verdict is invariant under case
changes and leading/trailing whitespace padding; every listed positive
answer, in any case and with any whitespace padding, maps to `true`
([corrected from the original claim:] provided no prefix introduces a
negative-pattern match on a sub-20-character text); and every listed short
negative answer maps to `false`. -/
theorem claim_C4_ideation_classifier (cfg : Option (List String)) :
    (∀ r : String, (SafetyMonitor.init cfg).q9Neg (pyNormalize r) = true →
      (pyNormalize r).length < 20 →
      (SafetyMonitor.init cfg).check_phq9_question9 (some r) = false)
    ∧ (∀ r : String,
        ((SafetyMonitor.init cfg).q9Neg (pyNormalize r) = false ∨ 20 ≤ (pyNormalize r).length) →
        (SafetyMonitor.init cfg).check_phq9_question9 (some r)
          = (SafetyMonitor.init cfg).q9Pos (pyNormalize r))
    ∧ (SafetyMonitor.init cfg).check_phq9_question9 none = false
    ∧ (SafetyMonitor.init cfg).check_phq9_question9 (some "") = false
    ∧ (∀ r : String, (SafetyMonitor.init cfg).q9Neg (pyNormalize r) = false →
        (SafetyMonitor.init cfg).q9Pos (pyNormalize r) = false →
        (SafetyMonitor.init cfg).check_phq9_question9 (some r) = false)
    ∧ (∀ r r' : String, pyLower r = pyLower r' →
        (SafetyMonitor.init cfg).check_phq9_question9 (some r)
          = (SafetyMonitor.init cfg).check_phq9_question9 (some r'))
    ∧ (∀ r p q : String, (∀ c ∈ p.data, Char.isWhitespace c) →
        (∀ c ∈ q.data, Char.isWhitespace c) →
        (SafetyMonitor.init cfg).check_phq9_question9 (some (p ++ r ++ q))
          = (SafetyMonitor.init cfg).check_phq9_question9 (some r))
    ∧ (∀ r w : String,
        w ∈ ["yes", "sometimes", "often", "nearly every day", "several days"] →
        pyNormalize r = w →
        (SafetyMonitor.init cfg).check_phq9_question9 (some r) = true)
    ∧ (∀ r w : String,
        w ∈ ["no", "never", "not at all", "absolutely not", "definitely not"] →
        pyNormalize r = w →
        (SafetyMonitor.init cfg).check_phq9_question9 (some r) = false) := by
  have hempty : pyNormalize "" = "" := rfl
  refine ⟨?_, ?_, rfl, rfl, ?_, ?_, ?_, ?_, ?_⟩
  · intro r hneg hlen
    by_cases hre : r = ""
    · subst hre
      rw [hempty] at hneg
      exact absurd hneg (by exact (fun h => nomatch h))
    · rw [check_phq9_some _ r hre, hneg]
      simp [hlen]
  · intro r hdisj
    by_cases hre : r = ""
    · subst hre; rfl
    · rw [check_phq9_some _ r hre]
      rcases hdisj with hneg | hlen
      · simp [hneg]
      · have : ¬ ((pyNormalize r).length < 20) := by omega
        simp [this]
  · intro r hneg hpos
    by_cases hre : r = ""
    · subst hre; rfl
    · rw [check_phq9_some _ r hre, hneg, hpos]
      simp
  · intro r r' hl
    by_cases hre : r = ""
    · have : r' = "" := by
        rw [str_empty_iff]
        have : (pyLower r').data = [] := by rw [← hl, hre]; rfl
        simpa [pyLower] using this
      rw [hre, this]
    · have hre' : ¬ r' = "" := by
        intro h
        apply hre
        rw [str_empty_iff]
        have : (pyLower r).data = [] := by rw [hl, h]; rfl
        simpa [pyLower] using this
      have hn : pyNormalize r = pyNormalize r' := by
        unfold pyNormalize; rw [hl]
      rw [check_phq9_some _ r hre, check_phq9_some _ r' hre', hn]
  · intro r p q hp hq
    by_cases hre : r = ""
    · subst hre
      by_cases hw : (p ++ "" ++ q) = ""
      · rw [hw]
      · rw [check_phq9_some _ _ hw]
        have hnorm : pyNormalize (p ++ "" ++ q) = "" := by
          rw [pyNormalize_pad "" p q hp hq]
          exact hempty
        rw [hnorm]
        rfl
    · have hw : ¬ (p ++ r ++ q) = "" := by
        intro h
        apply hre
        rw [str_empty_iff]
        have hd : p.data ++ r.data ++ q.data = [] := (str_empty_iff _).1 h
        rcases List.append_eq_nil.1 hd with ⟨hd1, _⟩
        exact (List.append_eq_nil.1 hd1).2
      rw [check_phq9_some _ _ hw, check_phq9_some _ r hre, pyNormalize_pad r p q hp hq]
  · intro r w hw hnorm
    simp only [List.mem_cons, List.mem_singleton, List.not_mem_nil, or_false] at hw
    have hre : ¬ r = "" := by
      intro h
      subst h
      rw [hempty] at hnorm
      rcases hw with rfl | rfl | rfl | rfl | rfl <;> exact nomatch hnorm
    rw [check_phq9_some _ r hre, hnorm]
    rcases hw with rfl | rfl | rfl | rfl | rfl <;> rfl
  · intro r w hw hnorm
    simp only [List.mem_cons, List.mem_singleton, List.not_mem_nil, or_false] at hw
    have hre : ¬ r = "" := by
      intro h
      subst h
      rw [hempty] at hnorm
      rcases hw with rfl | rfl | rfl | rfl | rfl <;> exact nomatch hnorm
    rw [check_phq9_some _ r hre, hnorm]
    rcases hw with rfl | rfl | rfl | rfl | rfl <;> rfl

/-- Witness for C4 (amended) at concrete inputs: a padded upper-case
"YES" classifies positive, a padded "Never" classifies negative. -/
theorem claim_C4_ideation_classifier_witness :
    (SafetyMonitor.init none).check_phq9_question9 (some "  YES ") = true
    ∧ (SafetyMonitor.init none).check_phq9_question9 (some " Never") = false := by
  constructor
  · exact (claim_C4_ideation_classifier none).2.2.2.2.2.2.2.1 "  YES " "yes"
      (by decide) (by decide)
  · exact (claim_C4_ideation_classifier none).2.2.2.2.2.2.2.2 " Never" "never"
      (by decide) (by decide)

/-! ### Triage selection: claim C5 -/

/-- C5: for every message handled in the TRIAGE phase, the instrument is
chosen by counting case-insensitive substring hits of the fixed depression
and anxiety keyword lists — strictly more depression hits selects PHQ9,
strictly more anxiety hits selects GAD7, a tie (including zero/zero)
selects GHQ12; the chosen instrument is recorded in the session's
`selected_tool`, the phase becomes SCREENING, and question 1 is presented
(question number 1, wording requested for the instrument's first
question). -/
theorem claim_C5_triage_tool_selection (collab : Collaborator) (session : SessionData)
    (user_message : String) :
    determine_screening_tool user_message =
      (if (anxiety_keywords.filter
            (fun k => strContains (pyLower user_message) k)).length
          < (depression_keywords.filter
            (fun k => strContains (pyLower user_message) k)).length
       then ScreeningTool.PHQ9
       else if (depression_keywords.filter
            (fun k => strContains (pyLower user_message) k)).length
          < (anxiety_keywords.filter
            (fun k => strContains (pyLower user_message) k)).length
       then ScreeningTool.GAD7
       else ScreeningTool.GHQ12)
    ∧ (handle_triage_phase collab session user_message).1.selected_tool
        = some (determine_screening_tool user_message)
    ∧ (handle_triage_phase collab session user_message).1.current_phase
        = ConversationPhase.SCREENING
    ∧ (handle_triage_phase collab session user_message).2.current_phase
        = some ConversationPhase.SCREENING
    ∧ (handle_triage_phase collab session user_message).2.selected_tool
        = some (determine_screening_tool user_message)
    ∧ (handle_triage_phase collab session user_message).2.question_number = some 1
    ∧ (handle_triage_phase collab session user_message).2.ai_response
        = some (collab.genResponse
            ((screening_questions (determine_screening_tool user_message)).getD 0
              dummyQuestion).text) := by
  exact ⟨rfl, rfl, rfl, rfl, rfl, rfl, rfl⟩

/-! ### Severity thresholds: claim C6 -/

/-- C6: for every non-negative total score, the severity band computed by
`_calculate_severity_level` equals the specification's threshold table:
PHQ9 — ≤4 minimal, ≤9 mild, ≤14 moderate, ≤19 moderately-severe, else
severe; GAD7 — ≤4 minimal, ≤9 mild, ≤14 moderate, else severe; GHQ12 —
≤11 minimal, ≤15 mild, ≤20 moderate, else severe (bounds inclusive). -/
theorem claim_C6_severity_thresholds (tool : ScreeningTool) (n : Nat) :
    calculate_severity_level tool (n : Int) = severity_band_spec tool n := by
  cases tool <;>
    simp only [calculate_severity_level, severity_band_spec] <;>
    split_ifs <;> first | rfl | omega

/-! ### The broken crisis override: claim C1 -/

/-- C1 (code bug): the text "I want to kill myself" receives a CRITICAL
verdict with `requires_override = true` from the classifier, yet
`process_user_message` on a live session does **not** transition to
CRISIS_RESPONSE — line 99 of `conversation_flow.py` reads
`crisis_response.should_override`, an attribute the `CrisisResponse`
dataclass does not have (its field is `requires_override`), so the call
raises `AttributeError`, lands in the blanket exception handler, and
returns an error payload with `crisis_detected = false`, the phase
unchanged, no crisis level and no crisis message. -/
theorem claim_C1_crisis_override_broken :
    ((SafetyMonitor.init none).check_for_crisis (some "I want to kill myself") 0).level
      = CrisisLevel.CRITICAL
    ∧ ((SafetyMonitor.init none).check_for_crisis (some "I want to kill myself") 0).requires_override
      = true
    ∧ (process_user_message stubCollab (SafetyMonitor.init none) (some greetingSession)
        "I want to kill myself" 0).2.crisis_detected = false
    ∧ (process_user_message stubCollab (SafetyMonitor.init none) (some greetingSession)
        "I want to kill myself" 0).2.current_phase = some ConversationPhase.GREETING
    ∧ (process_user_message stubCollab (SafetyMonitor.init none) (some greetingSession)
        "I want to kill myself" 0).2.crisis_level = none
    ∧ (process_user_message stubCollab (SafetyMonitor.init none) (some greetingSession)
        "I want to kill myself" 0).1 = some greetingSession
    ∧ (process_user_message stubCollab (SafetyMonitor.init none) (some greetingSession)
        "I want to kill myself" 0).2.error
      = some "Failed to process message: 'CrisisResponse' object has no attribute 'should_override'" := by
  refine ⟨?_, ?_, ?_, ?_, ?_, ?_, ?_⟩ <;> decide

/-! ### The stuck screening loop: claim C7 -/

/-- C7 (code bug): running scenario A through the phase handlers — "Bob"
in GREETING, then the anxiety-dominant triage message ("I've been really
anxious and worried" selects GAD7 and enters SCREENING) — and then
answering "never" seven times leaves the session exactly where it
started: because `_handle_screening_phase` appends a response only when
`len(responses) > 0`, and nothing ever appends the first response, the
answered count stays 0, question 1 is re-presented forever, and the
session never reaches RESULTS, never completes, and never accumulates a
total score — contradicting the claimed progression (one response per
answer, RESULTS with `completed = true` after the last item). -/
theorem claim_C7_screening_never_advances :
    scenarioA_afterName.user_name = some "Bob"
    ∧ scenarioA_afterName.current_phase = ConversationPhase.TRIAGE
    ∧ scenarioA_start.selected_tool = some ScreeningTool.GAD7
    ∧ scenarioA_start.current_phase = ConversationPhase.SCREENING
    ∧ scenarioA_start.responses = []
    ∧ scenarioA_final.current_phase = ConversationPhase.SCREENING
    ∧ scenarioA_final.responses = []
    ∧ scenarioA_final.completed = false
    ∧ (handle_screening_phase stubCollab scenarioA_final "never").2.question_number = some 1
    ∧ (handle_screening_phase stubCollab scenarioA_final "never").2.current_phase
        = some ConversationPhase.SCREENING := by
  refine ⟨?_, ?_, ?_, ?_, ?_, ?_, ?_, ?_, ?_, ?_⟩ <;> decide

/-! ### The unreachable self-harm short-circuit: claim C8 -/

theorem transition_to_results_no_crisis (collab : Collaborator) (tool : ScreeningTool)
    (session : SessionData) (msg : String) :
    (transition_to_results collab tool session msg).2.crisis_detected = false := rfl

theorem handle_screening_phase_never_crisis (collab : Collaborator) (session : SessionData)
    (user_message : String) :
    (handle_screening_phase collab session user_message).2.crisis_detected = false := by
  unfold handle_screening_phase
  cases session.selected_tool with
  | none => rfl
  | some tool =>
    by_cases h1 : (screening_questions tool).length ≤ session.responses.length
    · simp only [if_pos h1]
      exact transition_to_results_no_crisis ..
    · simp only [if_neg h1]
      by_cases h2 : 0 < session.responses.length
      · simp only [if_pos h2]
        have hcond : ¬ (tool = ScreeningTool.PHQ9 ∧
            ((screening_questions tool).getD (session.responses.length - 1) dummyQuestion).id
              = "phq9_9" ∧
            0 < (GeminiClient.map_response_to_score
                  (collab.scoreReply user_message
                    ((screening_questions tool).getD (session.responses.length - 1)
                      dummyQuestion).text tool)
                  user_message).1) := by
          rintro ⟨rfl, hid, -⟩
          have h9 : (screening_questions ScreeningTool.PHQ9).length = 9 := rfl
          rw [h9] at h1
          have hlt : session.responses.length < 9 := Nat.lt_of_not_le h1
          set n := session.responses.length with hn
          interval_cases n <;> exact absurd hid (by decide)
        rw [if_neg hcond]
        by_cases h3 : session.responses.length < (screening_questions tool).length
        · rw [if_pos h3]
        · rw [if_neg h3]
          exact transition_to_results_no_crisis ..
      · simp only [if_neg h2, if_pos (Nat.lt_of_not_le h1)]

/-- C8 (code bug): with PHQ-9 questions 1-8 already answered (so question
9 is the one being answered), a clearly positive ideation answer that the
scorer maps to 3 does **not** short-circuit into CRISIS_RESPONSE:
`_handle_screening_phase` compares `questions[len(responses)-1].id` —
here `phq9_8`, one question behind — against `"phq9_9"`, a test that can
never succeed before the `len(responses) >= 9` early exit to results, so
the handler records the answer under `phq9_8`, stays in SCREENING with
`crisis_detected = false`, and re-presents question 9.  The final
conjunct shows the divergence is universal: no session state,
collaborator behaviour, or message makes the screening handler report a
crisis. -/
theorem claim_C8_q9_crisis_unreachable :
    (GeminiClient.map_response_to_score CollabReply.err q9PositiveAnswer).1 = 3
    ∧ q9Session.responses.length = 8
    ∧ (handle_screening_phase stubCollab q9Session q9PositiveAnswer).2.crisis_detected = false
    ∧ (handle_screening_phase stubCollab q9Session q9PositiveAnswer).1.crisis_detected = false
    ∧ (handle_screening_phase stubCollab q9Session q9PositiveAnswer).2.current_phase
        = some ConversationPhase.SCREENING
    ∧ (handle_screening_phase stubCollab q9Session q9PositiveAnswer).2.crisis_trigger = none
    ∧ ((handle_screening_phase stubCollab q9Session q9PositiveAnswer).1.responses.map
        (fun r => r.question_id)).getLast? = some "phq9_8"
    ∧ ((handle_screening_phase stubCollab q9Session q9PositiveAnswer).1.responses.map
        (fun r => r.score)).getLast? = some 3
    ∧ (handle_screening_phase stubCollab q9Session q9PositiveAnswer).2.question_number
        = some 9
    ∧ (∀ (c : Collaborator) (s : SessionData) (msg : String),
        (handle_screening_phase c s msg).2.crisis_detected = false) := by
  refine ⟨?_, ?_, ?_, ?_, ?_, ?_, ?_, ?_, ?_, handle_screening_phase_never_crisis⟩ <;> decide

/-! ### Collaborator failure and fallback scoring: claims C9, C10 -/

/-- C9: whenever the external scoring call fails (exception, falsy
response text, or a reply the parser rejects — missing lines, non-integer,
out-of-range score), `map_response_to_score` returns exactly the local
deterministic fallback result and propagates no error (it is a total
function); and the fallback maps the high-frequency bucket to 3, the
medium-high bucket to 2, the low bucket to 1, the minimal bucket to 0,
and anything else to 1, by case-insensitive substring matching in that
order. -/
theorem claim_C9_fallback_scoring (reply : CollabReply) (user_response : String) :
    (GeminiClient.scoringFailed reply = true →
      GeminiClient.map_response_to_score reply user_response
        = GeminiClient.fallback_scoring user_response)
    ∧ (GeminiClient.fallback_scoring user_response).1 =
        (if ["always", "constantly", "every day", "all the time", "never stops"].any
            (fun w => strContains (pyLower user_response) w) then 3
         else if ["often", "frequently", "most days", "usually"].any
            (fun w => strContains (pyLower user_response) w) then 2
         else if ["sometimes", "occasionally", "few times", "now and then"].any
            (fun w => strContains (pyLower user_response) w) then 1
         else if ["never", "not at all", "rarely", "hardly ever"].any
            (fun w => strContains (pyLower user_response) w) then 0
         else 1) := by
  constructor
  · intro hf
    cases reply with
    | err => rfl
    | text t =>
      simp only [GeminiClient.scoringFailed, Bool.or_eq_true, decide_eq_true_eq,
        Option.isNone_iff_eq_none] at hf
      by_cases ht : t = ""
      · simp [GeminiClient.map_response_to_score, ht]
      · rcases hf with hf | hf
        · exact absurd hf ht
        · simp [GeminiClient.map_response_to_score, if_neg ht, hf]
  · simp only [GeminiClient.fallback_scoring]
    split_ifs <;> rfl

/-- Witness for C9: a failed collaborator call on an answer outside every
keyword bucket produces the fallback's conservative default. -/
theorem claim_C9_fallback_scoring_witness :
    GeminiClient.map_response_to_score CollabReply.err "once in a while"
      = GeminiClient.fallback_scoring "once in a while" :=
  (claim_C9_fallback_scoring CollabReply.err "once in a while").1 (by decide)

theorem fallback_scoring_mem (r : String) :
    (GeminiClient.fallback_scoring r).1 ∈ ([0, 1, 2, 3] : List Int) := by
  simp only [GeminiClient.fallback_scoring]
  split_ifs <;> simp

theorem parseScoreReply_range (t : String) (s : Int) (e : String)
    (h : GeminiClient.parseScoreReply t = some (s, e)) : 0 ≤ s ∧ s ≤ 3 := by
  simp only [GeminiClient.parseScoreReply] at h
  split at h
  · split at h
    · split at h
      · rename_i hrange
        injection h with h1
        cases h1
        exact hrange
      · exact nomatch h
    · exact nomatch h
  · exact nomatch h

/-- C10: for every collaborator outcome and every answer text,
`map_response_to_score` returns a score in {0, 1, 2, 3} (a parsed reply is
accepted only after the 0-3 range check, and on every other path the
fallback scorer returns one of the four literals); as a total function of
its inputs it never raises. -/
theorem claim_C10_score_always_in_range (reply : CollabReply) (user_response : String) :
    (GeminiClient.map_response_to_score reply user_response).1 ∈ ([0, 1, 2, 3] : List Int) := by
  cases reply with
  | err => exact fallback_scoring_mem user_response
  | text t =>
    by_cases ht : t = ""
    · simp only [GeminiClient.map_response_to_score, if_pos ht]
      exact fallback_scoring_mem user_response
    · simp only [GeminiClient.map_response_to_score, if_neg ht]
      cases hp : GeminiClient.parseScoreReply t with
      | none => exact fallback_scoring_mem user_response
      | some pr =>
        obtain ⟨s, e⟩ := pr
        have hr := parseScoreReply_range t s e hp
        simp only [List.mem_cons, List.mem_singleton, List.not_mem_nil, or_false]
        omega
